import Mathlib

/-!
Verification of the meural-manager upload-enrichment pipeline (server.js).

The JavaScript source is shallowly embedded: JS numbers that flow through
the EXIF rational divisions are modelled by `JSNum` (exact rationals plus
the IEEE special values Infinity / -Infinity / NaN that JS division can
produce); `undefined`/`null` object fields are modelled by `Option`;
fallible operations (filesystem reads, `ExifReader.load`, `fetch`,
`response.json()`, sharp, the SQLite write, `fs.unlinkSync`) are modelled
by `Except String` oracles carried in an environment record, so that a
`try { ... } catch` block becomes a `match` on the oracle results.
-/

/-- Model of a JavaScript number as it occurs in the EXIF rational
divisions: an exact rational, or one of the IEEE special values.
Exact rational arithmetic stands in for binary floating point; the
distinctions the specification talks about (finite value vs null vs
Infinity vs NaN) are unaffected by rounding. -/
inductive JSNum where
  | finite (q : ℚ)
  | posInf
  | negInf
  | nan
deriving DecidableEq

/-- JS truthiness of a number: `0` and `NaN` are falsy, every other
number (including `Infinity`) is truthy. -/
def JSNum.truthy : JSNum → Bool
  | .finite q => decide (q ≠ 0)
  | .nan => false
  | _ => true

/-- JS division `a / b` for the operand shapes that occur in the source
(finite numbers, and `NaN` standing for an `undefined` operand):
division by zero gives a signed infinity (or `NaN` for `0 / 0`), and any
`NaN` operand propagates. -/
def jsDiv : JSNum → JSNum → JSNum
  | .finite a, .finite b =>
    if b = 0 then (if 0 < a then .posInf else if a < 0 then .negInf else .nan)
    else .finite (a / b)
  | _, _ => .nan

/-- Coercion of a possibly-`undefined` number into a JS arithmetic
operand: `undefined` becomes `NaN`. -/
def toJSNum : Option ℚ → JSNum
  | some q => .finite q
  | none => .nan

/-- `x || null` applied to a JS number `x`. -/
def jsNumOrNull (x : JSNum) : Option JSNum :=
  if x.truthy then some x else none

/-- `x || null` applied to a possibly-absent string (empty string is falsy). -/
def strTruthy : Option String → Option String
  | some s => if s = "" then none else some s
  | none => none

/-- `x || null` applied to a possibly-absent plain number (`0` is falsy). -/
def numOrNull : Option ℚ → Option ℚ
  | some q => if q = 0 then none else some q
  | none => none

/-- JS truthiness test of a possibly-absent number. -/
def numTruthy : Option ℚ → Bool
  | some q => decide (q ≠ 0)
  | none => false

/-- JS `a || b` on possibly-absent numbers. -/
def jsOrQ : Option ℚ → Option ℚ → Option ℚ
  | some q, b => if q = 0 then b else some q
  | none, b => b

/-- JS `a || b` on possibly-absent strings. -/
def jsOr : Option String → Option String → Option String
  | some s, b => if s = "" then b else some s
  | none, b => b

/-- GPS section of the tags returned by `ExifReader.load(buffer,
{ expanded: true })`: `tags.gps.Latitude` / `Longitude` / `Altitude`
are plain (decimal) numbers when present. -/
structure GpsTags where
  latitude : Option ℚ := none
  longitude : Option ℚ := none
  altitude : Option ℚ := none
deriving DecidableEq

/-- The tag object produced by `ExifReader.load`, restricted to the
fields the source reads.  Each optional-chain access path such as
`tags.exif?.Make?.description` is flattened into a single `Option`
field; rational tags expose their `value` array (a JS array of numbers,
so an element access can come back `undefined`). -/
structure ExifTags where
  dateTimeOriginal : Option String := none  -- tags.exif?.DateTimeOriginal?.description
  make : Option String := none              -- tags.exif?.Make?.description
  model : Option String := none             -- tags.exif?.Model?.description
  lensModel : Option String := none         -- tags.exif?.LensModel?.description
  focalLength : Option (List ℚ) := none     -- tags.exif?.FocalLength?.value
  focalLength35mm : Option ℚ := none        -- tags.exif?.FocalLengthIn35mmFilm?.value
  fnumber : Option (List ℚ) := none         -- tags.exif?.FNumber?.value
  exposureTime : Option String := none      -- tags.exif?.ExposureTime?.description
  iso : Option ℚ := none                    -- tags.exif?.ISOSpeedRatings?.value
  exposureBias : Option (List ℚ) := none    -- tags.exif?.ExposureBiasValue?.value
  orientation : Option ℚ := none            -- tags.exif?.Orientation?.value
  colorSpace : Option String := none        -- tags.exif?.ColorSpace?.description
  whiteBalance : Option String := none      -- tags.exif?.WhiteBalance?.description
  fileImageWidth : Option ℚ := none         -- tags.file?.['Image Width']?.value
  fileImageHeight : Option ℚ := none        -- tags.file?.['Image Height']?.value
  pixelXDimension : Option ℚ := none        -- tags.exif?.PixelXDimension?.value
  pixelYDimension : Option ℚ := none        -- tags.exif?.PixelYDimension?.value
  gps : Option GpsTags := none              -- tags.gps
deriving DecidableEq

/-- Replace the first occurrence of character `a` by `b`
(JS `String.prototype.replace` with a string pattern replaces only the
first match). -/
def replaceFirstChar : List Char → Char → Char → List Char
  | [], _, _ => []
  | c :: cs, a, b => if c = a then b :: cs else c :: replaceFirstChar cs a b

/-- The date normalisation
`dt.replace(/^(\d{4}):(\d{2}):(\d{2})/, '$1-$2-$3').replace(' ', 'T')`:
if the string starts with `DDDD:DD:DD` the two leading colons become
dashes, then the first space becomes `T`. -/
def normalizeDate (dt : String) : String :=
  let cs := dt.data
  let cs2 :=
    if 10 ≤ cs.length ∧ (cs.take 4).all Char.isDigit ∧ cs.get? 4 = some ':' ∧
        ((cs.drop 5).take 2).all Char.isDigit ∧ cs.get? 7 = some ':' ∧
        ((cs.drop 8).take 2).all Char.isDigit then
      (cs.take 4) ++ '-' :: ((cs.drop 5).take 2) ++ '-' :: (cs.drop 8)
    else cs
  String.mk (replaceFirstChar cs2 ' ' 'T')

/-- The normalised metadata record built by `extractExif` (remote id not
yet known).  Absent JS properties and explicit `null`s are both `none`;
the catch-all blob `exif_json` (`JSON.stringify(tags)` in the source) is
modelled as the parsed tag object itself, since only its presence or
absence is ever inspected. -/
structure PhotoExif where
  date_taken : Option String := none
  camera_make : Option String := none
  camera_model : Option String := none
  lens_model : Option String := none
  focal_length : Option JSNum := none
  focal_length_35mm : Option ℚ := none
  aperture : Option JSNum := none
  shutter_speed : Option String := none
  iso : Option ℚ := none
  exposure_compensation : Option JSNum := none
  gps_latitude : Option ℚ := none
  gps_longitude : Option ℚ := none
  gps_altitude : Option ℚ := none
  location_name : Option String := none
  width : Option ℚ := none
  height : Option ℚ := none
  orientation : Option ℚ := none
  color_space : Option String := none
  white_balance : Option String := none
  exif_json : Option ExifTags := none
deriving DecidableEq

/-- `extractExif(buffer, filename)`.  The only throwing operation in its
body is `ExifReader.load`, so the function takes that call's outcome;
the `catch` branch returns the source's `{ exif_json: null }` object
(every other property read of that object yields `undefined`, i.e.
`none`).  The unused `filename` parameter is dropped. -/
def extractExif (parsed : Except String ExifTags) : PhotoExif :=
  match parsed with
  | .error _ => { exif_json := none }
  | .ok tags =>
    let dateTaken : Option String :=
      match strTruthy tags.dateTimeOriginal with
      | some dt => some (normalizeDate dt)
      | none => none
    let gpsTriple : Option ℚ × Option ℚ × Option ℚ :=
      match tags.gps with
      | some g =>
        if numTruthy g.latitude && numTruthy g.longitude then
          (g.latitude, g.longitude, numOrNull g.altitude)
        else (none, none, none)
      | none => (none, none, none)
    let aperture : Option JSNum :=
      match tags.fnumber with
      | some value => some (jsDiv (toJSNum (value.get? 0)) (toJSNum (value.get? 1)))
      | none => none
    let focalLength : Option JSNum :=
      match tags.focalLength with
      | some value => some (jsDiv (toJSNum (value.get? 0)) (toJSNum (value.get? 1)))
      | none => none
    { date_taken := dateTaken
      camera_make := strTruthy tags.make
      camera_model := strTruthy tags.model
      lens_model := strTruthy tags.lensModel
      focal_length := focalLength
      focal_length_35mm := numOrNull tags.focalLength35mm
      aperture := aperture
      shutter_speed := strTruthy tags.exposureTime
      iso := numOrNull tags.iso
      exposure_compensation :=
        jsNumOrNull (jsDiv (toJSNum (tags.exposureBias.bind (fun v => v.get? 0)))
          (toJSNum (tags.exposureBias.bind (fun v => v.get? 1))))
      gps_latitude := gpsTriple.1
      gps_longitude := gpsTriple.2.1
      gps_altitude := gpsTriple.2.2
      location_name := none
      width := jsOrQ tags.fileImageWidth (jsOrQ tags.pixelXDimension none)
      height := jsOrQ tags.fileImageHeight (jsOrQ tags.pixelYDimension none)
      orientation := numOrNull tags.orientation
      color_space := strTruthy tags.colorSpace
      white_balance := strTruthy tags.whiteBalance
      exif_json := some tags }

/-- The two observations the source makes on a `Date` object:
`getMonth()` (0-based) and the year.  `none` models the `NaN` components
of an Invalid Date. -/
structure JSDate where
  year : Option ℤ := none
  month : Option ℤ := none
deriving DecidableEq

/-- Digits to a natural number (most significant first). -/
def digitsToNat (cs : List Char) : Nat :=
  cs.foldl (fun n c => 10 * n + (c.toNat - '0'.toNat)) 0

/-- `new Date(s)` restricted to the ISO-like `YYYY-MM-DD...` strings the
pipeline itself produces (`extractExif` normalises EXIF dates into
exactly this shape); anything else is an Invalid Date, whose `getMonth()`
is `NaN`. -/
def jsNewDate (s : String) : JSDate :=
  let cs := s.data
  if 7 ≤ cs.length ∧ (cs.take 4).all Char.isDigit ∧ cs.get? 4 = some '-' ∧
      ((cs.drop 5).take 2).all Char.isDigit then
    let y := digitsToNat (cs.take 4)
    let m := digitsToNat ((cs.drop 5).take 2)
    if 1 ≤ m ∧ m ≤ 12 then { year := some (y : ℤ), month := some ((m : ℤ) - 1) }
    else { year := none, month := none }
  else { year := none, month := none }

/-- `getSeason(dateString)`: null for a falsy argument, otherwise the
Northern-hemisphere season of the 0-based month (an Invalid Date's `NaN`
month fails every range check, giving the `Winter` fallthrough). -/
def getSeason (dateString : Option String) : Option String :=
  match dateString with
  | none => none
  | some s =>
    if s = "" then none
    else
      match (jsNewDate s).month with
      | some month =>
        if 2 ≤ month ∧ month ≤ 4 then some "Spring"
        else if 5 ≤ month ∧ month ≤ 7 then some "Summer"
        else if 8 ≤ month ∧ month ≤ 10 then some "Fall"
        else some "Winter"
      | none => some "Winter"

/-- English month names, 0-based, as used by
`toLocaleDateString('en-US', { month: 'long' })`. -/
def monthLongName (m : ℤ) : String :=
  ["January", "February", "March", "April", "May", "June", "July",
   "August", "September", "October", "November", "December"].getD m.toNat ""

/-- `date.toLocaleDateString('en-US', { month: 'long', year: 'numeric' })`. -/
def toLocaleDateMonthYear (d : JSDate) : String :=
  match d.month, d.year with
  | some m, some y => monthLongName m ++ " " ++ toString y
  | _, _ => "Invalid Date"

/-- The location descriptor built by `reverseGeocode`. -/
structure GeoLocation where
  display_name : Option String := none
  city : Option String := none
  state : Option String := none
  country : Option String := none
  country_code : Option String := none
deriving DecidableEq

/-- `data.address` of the Nominatim reverse-lookup response. -/
structure GeoAddress where
  city : Option String := none
  town : Option String := none
  village : Option String := none
  state : Option String := none
  country : Option String := none
  country_code : Option String := none
deriving DecidableEq

/-- The parsed Nominatim response body. -/
structure GeoResponse where
  address : Option GeoAddress := none
  display_name : Option String := none
deriving DecidableEq

/-- `if (x) parts.push(x)` for a possibly-absent string `x`. -/
def pushTruthy (parts : List String) (v : Option String) : List String :=
  match strTruthy v with
  | some s => parts ++ [s]
  | none => parts

/-- JS `Array.prototype.join(sep)`. -/
def joinSep (sep : String) : List String → String
  | [] => ""
  | [x] => x
  | x :: xs => x ++ sep ++ joinSep sep xs

/-- `reverseGeocode(lat, lon)`.  The `fetch` round trip and
`response.json()` are the throwing operations inside the `try`, so the
function takes their combined outcome; the `catch` branch returns null.
A malformed response body makes `response.json()` throw and therefore
lands in the error case. -/
def reverseGeocode (resp : Except String GeoResponse) : Option GeoLocation :=
  match resp with
  | .error _ => none
  | .ok data =>
    let cityish : Option String :=
      jsOr (data.address.bind GeoAddress.city)
        (jsOr (data.address.bind GeoAddress.town) (data.address.bind GeoAddress.village))
    let parts := pushTruthy [] cityish
    let parts := pushTruthy parts (data.address.bind GeoAddress.state)
    let parts := pushTruthy parts (data.address.bind GeoAddress.country)
    some
      { display_name := jsOr (some (joinSep ", " parts)) data.display_name
        city := jsOr (data.address.bind GeoAddress.city)
          (jsOr (data.address.bind GeoAddress.town)
            (jsOr (data.address.bind GeoAddress.village) none))
        state := jsOr (data.address.bind GeoAddress.state) none
        country := jsOr (data.address.bind GeoAddress.country) none
        country_code := jsOr (data.address.bind GeoAddress.country_code) none }

/-- `analyzeImageWithVision(imageBuffer, mimeType)`.  `anthropic` is null
when no API key is configured, in which case the function returns null
without calling the backend.  The backend call (which may throw) is an
oracle whose success value is the `text` field of each content block;
the source reads `response.content[0]?.text?.trim()` and returns it
(`undefined` when the block or its text is missing).  The image bytes
and mime type only travel to the external service, so they are not
parameters of the model. -/
def analyzeImageWithVision (anthropicConfigured : Bool)
    (backend : Except String (List (Option String))) : Option String :=
  if !anthropicConfigured then none
  else
    match backend with
    | .error _ => none
    | .ok content => ((content.get? 0).bind id).map String.trim

/-- `generateSmartDescription(exifData, location, visionCaption)`.
`exifData` is read only through its `date_taken` field, which is the
parameter here.  Parts are pushed in fixed order (city, season, vision
caption), each guarded by JS truthiness; if no part was pushed and a
capture date exists, the "Month Year" display string is pushed instead;
finally the parts are joined with " · " and an empty join is coerced to
null. -/
def generateSmartDescription (date_taken : Option String)
    (location : Option GeoLocation) (visionCaption : Option String) : Option String :=
  let parts := pushTruthy [] (location.bind GeoLocation.city)
  let parts := pushTruthy parts (getSeason date_taken)
  let parts := pushTruthy parts visionCaption
  let parts :=
    match date_taken with
    | some s =>
      if parts.isEmpty ∧ s ≠ "" then [toLocaleDateMonthYear (jsNewDate s)]
      else parts
    | none => parts
  let joined := joinSep " · " parts
  if joined = "" then none else some joined

/-- `MAX_FILE_SIZE = 20 * 1024 * 1024` (20 MiB). -/
def MAX_FILE_SIZE : Nat := 20 * 1024 * 1024

/-- `MAX_DIMENSION = 3000` pixels on the long edge. -/
def MAX_DIMENSION : Nat := 3000

/-- JS `Math.round` on a non-negative value: half-up rounding. -/
def jsRound (q : ℚ) : ℤ := ⌊q + 1 / 2⌋

/-- The dimension computation of `resizeIfNeeded`: if the image is wider
than tall and over the ceiling, pin the width to the ceiling and round
the height proportionally; otherwise if the height is over the ceiling,
pin the height and round the width; otherwise keep both. -/
def computeDims (w h : Nat) : Nat × Nat :=
  if w > h ∧ w > MAX_DIMENSION then
    (MAX_DIMENSION, (jsRound ((h : ℚ) * ((MAX_DIMENSION : ℚ) / (w : ℚ)))).toNat)
  else if h > MAX_DIMENSION then
    ((jsRound ((w : ℚ) * ((MAX_DIMENSION : ℚ) / (h : ℚ)))).toNat, MAX_DIMENSION)
  else (w, h)

/-- The object returned by `resizeIfNeeded`; fields that a given return
path does not set are absent (`none`). -/
structure ResizeResult where
  buffer : List Nat
  resized : Bool
  originalSize : Option Nat := none
  newSize : Option Nat := none
  dimensions : Option (Nat × Nat) := none
  error : Option String := none
deriving DecidableEq

/-- Oracle for the two sharp calls inside `resizeIfNeeded`'s `try`:
`sharp(buffer).metadata()` and the resize-recompress pipeline invoked
with the computed target dimensions.  Either call may throw. -/
structure SharpEnv where
  metadata : Except String (Nat × Nat)
  resize : Nat → Nat → Except String (List Nat)

/-- `resizeIfNeeded(fileBuffer, filename)`: a buffer of at most
`MAX_FILE_SIZE` bytes is returned as-is with `resized: false`;
otherwise the new dimensions are computed from the sharp metadata and
the recompressed buffer is returned with `resized: true`; if either
sharp call throws, the original buffer is returned unresized with an
error annotation.  The `filename` parameter only feeds log lines. -/
def resizeIfNeeded (fileBuffer : List Nat) (sharp : SharpEnv) : ResizeResult :=
  if fileBuffer.length ≤ MAX_FILE_SIZE then
    { buffer := fileBuffer, resized := false }
  else
    match sharp.metadata with
    | .error msg => { buffer := fileBuffer, resized := false, error := some msg }
    | .ok wh =>
      let dims := computeDims wh.1 wh.2
      match sharp.resize dims.1 dims.2 with
      | .error msg => { buffer := fileBuffer, resized := false, error := some msg }
      | .ok resizedBuffer =>
        { buffer := resizedBuffer
          resized := true
          originalSize := some fileBuffer.length
          newSize := some resizedBuffer.length
          dimensions := some dims }

/-- A row of the `photos` table.  The AUTOINCREMENT surrogate key and the
`uploaded_at` default timestamp are outside the model; `meural_id` is
the UNIQUE application key the claims are about. -/
structure PhotoRow where
  meural_id : ℤ
  original_filename : String
  date_taken : Option String
  camera_make : Option String
  camera_model : Option String
  lens_model : Option String
  focal_length : Option JSNum
  focal_length_35mm : Option ℚ
  aperture : Option JSNum
  shutter_speed : Option String
  iso : Option ℚ
  exposure_compensation : Option JSNum
  gps_latitude : Option ℚ
  gps_longitude : Option ℚ
  gps_altitude : Option ℚ
  location_name : Option String
  width : Option ℚ
  height : Option ℚ
  orientation : Option ℚ
  color_space : Option String
  white_balance : Option String
  exif_json : Option ExifTags
deriving DecidableEq

/-- The row written by `savePhotoExif`'s INSERT: every listed column is
bound from the new record; `location_name` is not in the column list,
so it takes the NULL default even when the in-memory record had it
set. -/
def mkPhotoRow (meuralId : ℤ) (filename : String) (e : PhotoExif) : PhotoRow :=
  { meural_id := meuralId
    original_filename := filename
    date_taken := e.date_taken
    camera_make := e.camera_make
    camera_model := e.camera_model
    lens_model := e.lens_model
    focal_length := e.focal_length
    focal_length_35mm := e.focal_length_35mm
    aperture := e.aperture
    shutter_speed := e.shutter_speed
    iso := e.iso
    exposure_compensation := e.exposure_compensation
    gps_latitude := e.gps_latitude
    gps_longitude := e.gps_longitude
    gps_altitude := e.gps_altitude
    location_name := none
    width := e.width
    height := e.height
    orientation := e.orientation
    color_space := e.color_space
    white_balance := e.white_balance
    exif_json := e.exif_json }

/-- `savePhotoExif(meuralId, filename, exifData)` over a table state:
`INSERT OR REPLACE` first deletes any row violating the `meural_id`
UNIQUE constraint, then inserts the fresh row. -/
def savePhotoExif (db : List PhotoRow) (meuralId : ℤ) (filename : String)
    (exifData : PhotoExif) : List PhotoRow :=
  db.filter (fun r => !(r.meural_id == meuralId)) ++ [mkPhotoRow meuralId filename exifData]

/-- `SELECT * FROM photos WHERE meural_id = ?` followed by `get` (first
matching row or null). -/
def getByMeuralId (db : List PhotoRow) (meuralId : ℤ) : Option PhotoRow :=
  db.find? (fun r => r.meural_id == meuralId)

/-- `data.data?.id` of the parsed vendor upload response. -/
structure ItemData where
  id : Option ℤ := none
deriving DecidableEq

/-- The parsed body of the vendor upload response. -/
structure ResponseBody where
  data : Option ItemData := none
deriving DecidableEq

/-- `data.data?.id`. -/
def bodyId (b : ResponseBody) : Option ℤ := b.data.bind ItemData.id

/-- JS truthiness of a possibly-absent numeric id. -/
def idTruthy : Option ℤ → Bool
  | some i => decide (i ≠ 0)
  | none => false

/-- The `exif` sub-object of a success entry in the batch result. -/
structure ExifSummary where
  date_taken : Option String := none
  camera : Option String := none
  lens : Option String := none
  aperture : Option JSNum := none
  shutter : Option String := none
  iso : Option ℚ := none
  gps : Bool := false
  location : Option String := none
  season : Option String := none
deriving DecidableEq

/-- The `resized` sub-object of a batch result entry (sizes kept as byte
counts; the source renders them as "x.yMB" strings for display only). -/
structure ResizedInfo where
  fromSize : Option Nat := none
  toSize : Option Nat := none
  dimensions : Option (Nat × Nat) := none
deriving DecidableEq

/-- The `error` field of a batch result entry: the parsed response body
for a non-ok upload, or the message of a caught exception. -/
inductive EntryError where
  | body (b : ResponseBody)
  | thrown (msg : String)
deriving DecidableEq

/-- One element of the `results` array of `POST /api/items/upload`. -/
structure ResultEntry where
  filename : String
  success : Bool
  meural_id : Option ℤ := none
  dataBody : Option ResponseBody := none
  resized : Option ResizedInfo := none
  exif : Option ExifSummary := none
  vision_caption : Option String := none
  smart_description : Option String := none
  error : Option EntryError := none
deriving DecidableEq

/-- The entry pushed by the per-file `catch` block:
`{ filename, success: false, error: err.message }`. -/
def catchEntry (filename msg : String) : ResultEntry :=
  { filename := filename, success := false, error := some (.thrown msg) }

/-- Per-file environment: the outcome of every fallible external
operation the loop body performs for one file.  `applyUpdate` (the
best-effort `PUT /items/:id` pushing the description) is listed for
completeness but its outcome is swallowed by an inner `try`/`catch`, so
it never influences the result. -/
structure FileEnv where
  filename : String
  read : Except String (List Nat)
  parse : Except String ExifTags
  sharp : SharpEnv
  uploadFetch : Except String (Bool × ResponseBody)
  geo : Except String GeoResponse
  visionConfigured : Bool
  vision : Except String (List (Option String))
  applyUpdate : Except String Unit
  save : Except String Unit
  unlink : Except String Unit

/-- The body of the per-file loop of `POST /api/items/upload`, returning
the entries it pushes onto `results` for this file.  Mutable variables
initialised to null and conditionally assigned inside
`if (response.ok && data.data?.id)` are translated to conditional
expressions.  Note the success path: the entry is pushed first and
`fs.unlinkSync` runs afterwards still inside the `try`, so a throwing
unlink reaches the `catch`, which pushes a second entry for the same
file (the error-path unlink, by contrast, is wrapped in its own
swallowing `try`/`catch`). -/
def processFile (env : FileEnv) : List ResultEntry :=
  match env.read with
  | .error msg => [catchEntry env.filename msg]
  | .ok buf =>
    let exifData := extractExif env.parse
    let rr := resizeIfNeeded buf env.sharp
    match env.uploadFetch with
    | .error msg => [catchEntry env.filename msg]
    | .ok okBody =>
      let ok := okBody.1
      let body := okBody.2
      let enriched := ok && idTruthy (bodyId body)
      let location :=
        if enriched then
          if numTruthy exifData.gps_latitude && numTruthy exifData.gps_longitude then
            reverseGeocode env.geo
          else none
        else none
      let exifData2 :=
        match location with
        | some loc => { exifData with location_name := loc.display_name }
        | none => exifData
      let visionCaption :=
        if enriched then analyzeImageWithVision env.visionConfigured env.vision else none
      let smartDescription :=
        if enriched then generateSmartDescription exifData2.date_taken location visionCaption
        else none
      let saveResult := if enriched then env.save else Except.ok ()
      match saveResult with
      | .error msg => [catchEntry env.filename msg]
      | .ok _ =>
        let entry : ResultEntry :=
          { filename := env.filename
            success := ok
            meural_id := if ok then bodyId body else none
            dataBody := if ok then some body else none
            resized :=
              if rr.resized then
                some { fromSize := rr.originalSize, toSize := rr.newSize,
                       dimensions := rr.dimensions }
              else none
            exif :=
              if ok then
                some { date_taken := exifData2.date_taken
                       camera := exifData2.camera_model
                       lens := exifData2.lens_model
                       aperture := exifData2.aperture
                       shutter := exifData2.shutter_speed
                       iso := exifData2.iso
                       gps := numTruthy exifData2.gps_latitude
                       location := jsOr (location.bind GeoLocation.city)
                         (jsOr (location.bind GeoLocation.display_name) none)
                       season := getSeason exifData2.date_taken }
              else none
            vision_caption := visionCaption
            smart_description := smartDescription
            error := if ok then none else some (.body body) }
        match env.unlink with
        | .ok _ => [entry]
        | .error msg => [entry, catchEntry env.filename msg]

/-- The whole per-batch loop: each file's entries in input order (the
request-level work before the loop — multer parsing and the token fetch
— is outside the loop and outside this model). -/
def uploadBatch (files : List FileEnv) : List ResultEntry :=
  (files.map processFile).flatten

/-! ### Concrete inputs used by the theorems below -/

/-- Tags of a photo taken on the equator: latitude 0, longitude 45,
altitude 100 — both coordinates are present in the source image. -/
def tagsEquator : ExifTags :=
  { gps := some { latitude := some 0, longitude := some 45, altitude := some 100 } }

/-- Tags with both coordinates present and truthy. -/
def tagsBothPresent : ExifTags :=
  { gps := some { latitude := some 1, longitude := some 2, altitude := some 3 } }

/-- A sharp oracle that is never consulted. -/
def sharpUnused : SharpEnv :=
  { metadata := .error "unused", resize := fun _ _ => .error "unused" }

/-- A sharp oracle reporting 6000×4000 and recompressing to one byte. -/
def sharp6000 : SharpEnv :=
  { metadata := .ok (6000, 4000), resize := fun _ _ => .ok [7] }

/-- A buffer one byte over the 20 MiB ceiling. -/
def bigBuffer : List Nat := List.replicate (MAX_FILE_SIZE + 1) 0

/-- A per-file environment in which every pipeline step succeeds but the
success-path temp-file cleanup (`fs.unlinkSync`) throws. -/
def unlinkFailEnv : FileEnv :=
  { filename := "a.jpg"
    read := .ok []
    parse := .error "no exif"
    sharp := sharpUnused
    uploadFetch := .ok (true, { data := some { id := some 5 } })
    geo := .error "unused"
    visionConfigured := false
    vision := .error "unused"
    applyUpdate := .ok ()
    save := .ok ()
    unlink := .error "ENOENT: no such file or directory" }

/-- The same environment with a succeeding unlink. -/
def unlinkOkEnv : FileEnv := { unlinkFailEnv with unlink := .ok () }

/-- The `exif` summary of a file whose metadata extraction failed: every
field null, `gps` false. -/
def nullExifSummary : ExifSummary := { }

/-- An environment whose EXIF parse throws but whose upload succeeds. -/
def parseFailEnv : FileEnv :=
  { filename := "b.jpg"
    read := .ok []
    parse := .error "bad exif"
    sharp := sharpUnused
    uploadFetch := .ok (true, { data := some { id := some 9 } })
    geo := .error "unused"
    visionConfigured := false
    vision := .error "unused"
    applyUpdate := .ok ()
    save := .ok ()
    unlink := .ok () }

/-- An environment with GPS-bearing tags whose geocoding and captioning
backends both fail while the upload succeeds. -/
def enrichFailEnv : FileEnv :=
  { filename := "c.jpg"
    read := .ok []
    parse := .ok tagsBothPresent
    sharp := sharpUnused
    uploadFetch := .ok (true, { data := some { id := some 4 } })
    geo := .error "network down"
    visionConfigured := true
    vision := .error "api down"
    applyUpdate := .ok ()
    save := .ok ()
    unlink := .ok () }

/-! ## Claims about the rational-pair derivations (C2, C3) -/

/-- C2 counterexample: a rational pair whose denominator is zero does
not yield null — for both aperture (FNumber) and exposure compensation,
the pair (28, 0) produces the JS value `Infinity`, which the extractor
stores (`Infinity` is truthy, so even the `|| null` guard on exposure
compensation keeps it). -/
theorem aperture_zero_denominator_gives_infinity :
    (extractExif (.ok { fnumber := some [28, 0] })).aperture = some JSNum.posInf ∧
    (extractExif (.ok { exposureBias := some [28, 0] })).exposure_compensation
      = some JSNum.posInf := by
  constructor <;>
    norm_num [extractExif, jsDiv, toJSNum, jsNumOrNull, JSNum.truthy]

/-- C2 (amended): aperture and exposure compensation are computed by
dividing the rational pair's numerator by its denominator — (28, 10)
yields 2.8 and a missing tag yields null — but a zero denominator
yields `Infinity` (numerator positive) or `NaN` (numerator zero, kept
as `NaN` for aperture, coerced to null for exposure compensation), and
a missing denominator yields `NaN` for aperture and null for exposure
compensation.  No case throws: the extractor is a total function of the
parsed tags. -/
theorem rational_pair_division_behavior :
    (∀ (tags : ExifTags) (n d : ℚ), tags.fnumber = some [n, d] → d ≠ 0 →
      (extractExif (.ok tags)).aperture = some (JSNum.finite (n / d))) ∧
    (extractExif (.ok { fnumber := some [28, 10] })).aperture
      = some (JSNum.finite 2.8) ∧
    (extractExif (.ok { exposureBias := some [28, 10] })).exposure_compensation
      = some (JSNum.finite 2.8) ∧
    (∀ tags : ExifTags, tags.fnumber = none →
      (extractExif (.ok tags)).aperture = none) ∧
    (∀ tags : ExifTags, tags.exposureBias = none →
      (extractExif (.ok tags)).exposure_compensation = none) ∧
    (extractExif (.ok { fnumber := some [28] })).aperture = some JSNum.nan ∧
    (extractExif (.ok { fnumber := some [0, 0] })).aperture = some JSNum.nan ∧
    (extractExif (.ok { exposureBias := some [28] })).exposure_compensation = none ∧
    (extractExif (.ok { exposureBias := some [0, 0] })).exposure_compensation = none := by
  refine ⟨?_, ?_, ?_, ?_, ?_, ?_, ?_, ?_, ?_⟩
  · intro tags n d hf hd
    simp [extractExif, hf, jsDiv, toJSNum, hd]
  · norm_num [extractExif, jsDiv, toJSNum]
  · norm_num [extractExif, jsDiv, toJSNum, jsNumOrNull, JSNum.truthy]
  · intro tags hf
    simp [extractExif, hf]
  · intro tags hb
    simp [extractExif, hb, jsDiv, toJSNum, jsNumOrNull, JSNum.truthy]
  · norm_num [extractExif, jsDiv, toJSNum]
  · norm_num [extractExif, jsDiv, toJSNum]
  · norm_num [extractExif, jsDiv, toJSNum, jsNumOrNull, JSNum.truthy]
  · norm_num [extractExif, jsDiv, toJSNum, jsNumOrNull, JSNum.truthy]

/-- Witness for `rational_pair_division_behavior` at concrete inputs. -/
theorem rational_pair_division_behavior_witness :
    (extractExif (.ok { fnumber := some [3, 2] })).aperture
      = some (JSNum.finite (3 / 2)) ∧
    (extractExif (.ok { fnumber := none })).aperture = none :=
  ⟨rational_pair_division_behavior.1 _ 3 2 rfl (by norm_num),
   rational_pair_division_behavior.2.2.2.1 _ rfl⟩

/-- C3: an exposure compensation of numeric zero is NOT stored as 0 —
the `|| null` on the division result coerces the falsy 0 to null,
conflating "0 EV" with "unknown", while the aperture path (a plain
assignment guarded by the tag's presence) does keep a 0 value.  This
contradicts the stated invariant that a zero capture value must be
distinguished from an absent one. -/
theorem exposure_compensation_zero_coerced_to_null :
    (extractExif (.ok { exposureBias := some [0, 10] })).exposure_compensation = none ∧
    (extractExif (.ok { fnumber := some [0, 10] })).aperture
      = some (JSNum.finite 0) := by
  constructor <;>
    norm_num [extractExif, jsDiv, toJSNum, jsNumOrNull, JSNum.truthy]

/-! ## Claims about the Description Composer (C7, C8) -/

/-- C7: the composer joins city, season and caption in fixed order with
" · "; July is `Summer`, a lone January date gives `Winter`, and no
inputs at all give null; the 0-indexed month-to-season mapping is
months 2–4 → Spring, 5–7 → Summer, 8–10 → Fall, else Winter. -/
theorem smart_description_composition :
    generateSmartDescription (some "2024-07-15T14:30:00")
      (some { city := some "Paris" }) (some "Golden light on rooftops")
      = some "Paris · Summer · Golden light on rooftops" ∧
    generateSmartDescription (some "2024-01-05T08:00:00") none none
      = some "Winter" ∧
    generateSmartDescription none none none = none ∧
    getSeason (some "2024-01-15T00:00:00") = some "Winter" ∧
    getSeason (some "2024-02-15T00:00:00") = some "Winter" ∧
    getSeason (some "2024-03-15T00:00:00") = some "Spring" ∧
    getSeason (some "2024-04-15T00:00:00") = some "Spring" ∧
    getSeason (some "2024-05-15T00:00:00") = some "Spring" ∧
    getSeason (some "2024-06-15T00:00:00") = some "Summer" ∧
    getSeason (some "2024-07-15T00:00:00") = some "Summer" ∧
    getSeason (some "2024-08-15T00:00:00") = some "Summer" ∧
    getSeason (some "2024-09-15T00:00:00") = some "Fall" ∧
    getSeason (some "2024-10-15T00:00:00") = some "Fall" ∧
    getSeason (some "2024-11-15T00:00:00") = some "Fall" ∧
    getSeason (some "2024-12-15T00:00:00") = some "Winter" := by decide

/-- Helper: a truthy date string always yields a season (even an
unparseable one, whose `NaN` month falls through to `Winter`), and no
season name is empty. -/
theorem getSeason_isSome_of_ne (s : String) (h : s ≠ "") :
    ∃ x, getSeason (some s) = some x ∧ x ≠ "" := by
  unfold getSeason
  simp only [if_neg h]
  cases hm : (jsNewDate s).month with
  | none => exact ⟨"Winter", rfl, by decide⟩
  | some m =>
    by_cases h1 : 2 ≤ m ∧ m ≤ 4
    · exact ⟨"Spring", by simp [h1], by decide⟩
    · by_cases h2 : 5 ≤ m ∧ m ≤ 7
      · exact ⟨"Summer", by simp [h1, h2], by decide⟩
      · by_cases h3 : 8 ≤ m ∧ m ≤ 10
        · exact ⟨"Fall", by simp [h1, h2, h3], by decide⟩
        · exact ⟨"Winter", by simp [h1, h2, h3], by decide⟩

/-- C8 counterexample: with city and caption absent but a January
capture date present, the composer returns the season "Winter", not the
"Month Year" string "January 2024" — the Month-Year fallback branch
requires no part to have been pushed, but a present date always pushes
a season. -/
theorem month_year_fallback_not_taken :
    generateSmartDescription (some "2024-01-05T08:00:00") none none = some "Winter" ∧
    toLocaleDateMonthYear (jsNewDate "2024-01-05T08:00:00") = "January 2024" ∧
    some "Winter" ≠ some "January 2024" := by decide

/-- C8 (amended): when city and caption are absent (or empty) but a
capture date string is present and non-empty, the composer returns the
season name derived from that date; since a present date always yields
a season, the "Month Year" fallback branch is unreachable in this
situation. -/
theorem season_shown_when_only_date_present :
    ∀ (s : String) (location : Option GeoLocation) (visionCaption : Option String),
      strTruthy (location.bind GeoLocation.city) = none →
      strTruthy visionCaption = none → s ≠ "" →
      generateSmartDescription (some s) location visionCaption = getSeason (some s) ∧
      (getSeason (some s)).isSome = true := by
  intro s location visionCaption hcity hcap hs
  obtain ⟨x, hx, hxne⟩ := getSeason_isSome_of_ne s hs
  refine ⟨?_, by simp [hx]⟩
  unfold generateSmartDescription
  rw [hx]
  simp only [pushTruthy, hcity, hcap]
  simp [strTruthy, hxne, joinSep]

/-- Witness for `season_shown_when_only_date_present`. -/
theorem season_shown_when_only_date_present_witness :
    generateSmartDescription (some "2024-05-01T00:00:00") none none
      = getSeason (some "2024-05-01T00:00:00") ∧
    (getSeason (some "2024-05-01T00:00:00")).isSome = true :=
  season_shown_when_only_date_present "2024-05-01T00:00:00" none none rfl rfl
    (by decide)

/-! ## Claims about GPS extraction (C9) -/

/-- C9 counterexample: with latitude 0 present alongside longitude 45,
the extractor stores null for every spatial field — the presence check
`tags.gps?.Latitude && tags.gps?.Longitude` is a JS truthiness test, so
the boundary value 0 is treated as absent. -/
theorem gps_dropped_at_zero_latitude :
    tagsEquator.gps.bind GpsTags.latitude = some 0 ∧
    tagsEquator.gps.bind GpsTags.longitude = some 45 ∧
    (extractExif (.ok tagsEquator)).gps_latitude = none ∧
    (extractExif (.ok tagsEquator)).gps_longitude = none ∧
    (extractExif (.ok tagsEquator)).gps_altitude = none := by decide

/-- Helper: a truthy possibly-absent number is present. -/
theorem numTruthy_isSome (x : Option ℚ) (h : numTruthy x = true) : x.isSome = true := by
  cases x with
  | none => simp [numTruthy] at h
  | some q => rfl

/-- C9 (amended): the GPS fields are populated exactly when both
latitude and longitude are present AND truthy (nonzero) — a latitude or
longitude equal to 0 is treated as absent — and the spatial fields are
all-or-nothing: altitude is only ever stored when latitude and
longitude are. -/
theorem gps_group_truthiness (tags : ExifTags) :
    ((extractExif (.ok tags)).gps_latitude.isSome = true ↔
      (numTruthy (tags.gps.bind GpsTags.latitude) = true ∧
       numTruthy (tags.gps.bind GpsTags.longitude) = true)) ∧
    ((extractExif (.ok tags)).gps_longitude.isSome = true ↔
      (numTruthy (tags.gps.bind GpsTags.latitude) = true ∧
       numTruthy (tags.gps.bind GpsTags.longitude) = true)) ∧
    ((extractExif (.ok tags)).gps_altitude.isSome = true →
      (extractExif (.ok tags)).gps_latitude.isSome = true ∧
      (extractExif (.ok tags)).gps_longitude.isSome = true) := by
  cases htg : tags.gps with
  | none => simp [extractExif, htg, numTruthy]
  | some g =>
    cases hc : numTruthy g.latitude && numTruthy g.longitude with
    | true =>
      have hc' := hc
      simp only [Bool.and_eq_true] at hc'
      obtain ⟨h1, h2⟩ := hc'
      simp [extractExif, htg, hc, h1, h2, numTruthy_isSome _ h1, numTruthy_isSome _ h2]
    | false =>
      have hne : ¬(numTruthy g.latitude = true ∧ numTruthy g.longitude = true) := by
        intro hand
        rw [hand.1, hand.2] at hc
        simp at hc
      simp [extractExif, htg, hc, hne]

/-- Witness for `gps_group_truthiness`. -/
theorem gps_group_truthiness_witness :
    (extractExif (.ok tagsBothPresent)).gps_latitude.isSome = true ∧
    (extractExif (.ok tagsBothPresent)).gps_longitude.isSome = true :=
  ⟨(gps_group_truthiness tagsBothPresent).1.mpr ⟨by decide, by decide⟩,
   (gps_group_truthiness tagsBothPresent).2.1.mpr ⟨by decide, by decide⟩⟩

/-! ## Claims about the Image Normalizer (C4) -/

/-- Helper: half-up rounding of a value at most `n` stays at most `n`. -/
theorem jsRound_le_of_le (q : ℚ) (n : Nat) (h : q ≤ (n : ℚ)) :
    (jsRound q).toNat ≤ n := by
  rw [Int.toNat_le]
  unfold jsRound
  have hf : ⌊q + 1 / 2⌋ < (n : ℤ) + 1 := by
    apply Int.floor_lt.mpr
    push_cast
    linarith
  omega

/-- Helper: the computed target dimensions never exceed the intrinsic
ones (scaling never enlarges). -/
theorem computeDims_never_enlarges (w h : Nat) :
    (computeDims w h).1 ≤ w ∧ (computeDims w h).2 ≤ h := by
  unfold computeDims
  split
  next hc =>
    obtain ⟨hwh, hw⟩ := hc
    constructor
    · exact le_of_lt hw
    · apply jsRound_le_of_le
      have hr : (MAX_DIMENSION : ℚ) / (w : ℚ) ≤ 1 :=
        div_le_one_of_le₀ (by exact_mod_cast le_of_lt hw) (by positivity)
      exact mul_le_of_le_one_right (by positivity) hr
  next hc =>
    split
    next hh =>
      constructor
      · apply jsRound_le_of_le
        have hr : (MAX_DIMENSION : ℚ) / (h : ℚ) ≤ 1 :=
          div_le_one_of_le₀ (by exact_mod_cast le_of_lt hh) (by positivity)
        exact mul_le_of_le_one_right (by positivity) hr
      · exact le_of_lt hh
    next hh => exact ⟨le_refl w, le_refl h⟩

/-- Helper: the 6000×4000 dimensions scale to exactly 3000×2000. -/
theorem computeDims_6000_4000 : computeDims 6000 4000 = (3000, 2000) := by
  have hq : ((4000 : ℕ) : ℚ) * (((MAX_DIMENSION : ℕ) : ℚ) / ((6000 : ℕ) : ℚ)) + 1 / 2
      = 2000 + 1 / 2 := by
    norm_num [MAX_DIMENSION]
  have hfloor : ⌊(2000 : ℚ) + 1 / 2⌋ = 2000 := by
    rw [Int.floor_eq_iff]
    constructor <;> norm_num
  unfold computeDims jsRound
  rw [if_pos (by norm_num [MAX_DIMENSION])]
  rw [hq, hfloor]
  decide

/-- C4: a buffer of at most 20 MiB is returned byte-identical with the
resized flag false; an oversized buffer is recompressed at the computed
dimensions, which for a 6000×4000 image are exactly 3000×2000 — long
edge at the 3000 px ceiling and the 3:2 aspect ratio preserved — and
the dimension computation never enlarges either edge. -/
theorem resizeIfNeeded_contract :
    (∀ (buf : List Nat) (sharp : SharpEnv), buf.length ≤ MAX_FILE_SIZE →
      resizeIfNeeded buf sharp = { buffer := buf, resized := false }) ∧
    (∀ (buf : List Nat) (sharp : SharpEnv) (w h : Nat) (out : List Nat),
      MAX_FILE_SIZE < buf.length → sharp.metadata = .ok (w, h) →
      sharp.resize (computeDims w h).1 (computeDims w h).2 = .ok out →
      resizeIfNeeded buf sharp =
        { buffer := out, resized := true, originalSize := some buf.length,
          newSize := some out.length, dimensions := some (computeDims w h) }) ∧
    computeDims 6000 4000 = (3000, 2000) ∧
    max (computeDims 6000 4000).1 (computeDims 6000 4000).2 ≤ MAX_DIMENSION ∧
    2 * (computeDims 6000 4000).1 = 3 * (computeDims 6000 4000).2 ∧
    (∀ w h : Nat, (computeDims w h).1 ≤ w ∧ (computeDims w h).2 ≤ h) := by
  refine ⟨?_, ?_, computeDims_6000_4000,
    by rw [computeDims_6000_4000]; norm_num [MAX_DIMENSION],
    by rw [computeDims_6000_4000]; decide, computeDims_never_enlarges⟩
  · intro buf sharp hle
    unfold resizeIfNeeded
    rw [if_pos hle]
  · intro buf sharp w h out hlen hmeta hres
    simp only [resizeIfNeeded, hmeta, hres, if_neg (by omega : ¬buf.length ≤ MAX_FILE_SIZE)]

/-- Witness for `resizeIfNeeded_contract`. -/
theorem resizeIfNeeded_contract_witness :
    resizeIfNeeded [] sharpUnused = { buffer := [], resized := false } ∧
    resizeIfNeeded bigBuffer sharp6000 =
      { buffer := [7], resized := true, originalSize := some bigBuffer.length,
        newSize := some [7].length, dimensions := some (computeDims 6000 4000) } :=
  ⟨resizeIfNeeded_contract.1 [] sharpUnused (Nat.zero_le _),
   resizeIfNeeded_contract.2.1 bigBuffer sharp6000 6000 4000 [7]
     (by rw [show bigBuffer.length = MAX_FILE_SIZE + 1 from List.length_replicate _ _]
         omega)
     rfl rfl⟩

/-! ## Claims about the Metadata Store (C10) -/

/-- Helper: a list purged of rows keyed `id` contains no row keyed `id`. -/
theorem find_none_in_purged (l : List PhotoRow) (id : ℤ) :
    (l.filter (fun r => !(r.meural_id == id))).find? (fun r => r.meural_id == id) = none := by
  rw [List.find?_eq_none]
  intro x hx
  have hm := List.mem_filter.mp hx
  simp only [Bool.not_eq_true', beq_eq_false_iff_ne, ne_eq] at hm
  simp only [beq_iff_eq]
  exact hm.2

/-- Helper: filtering for key `id` after purging key `id` leaves nothing. -/
theorem filter_purged_nil (l : List PhotoRow) (id : ℤ) :
    (l.filter (fun r => !(r.meural_id == id))).filter (fun r => r.meural_id == id) = [] := by
  rw [List.filter_filter]
  rw [List.filter_congr (fun x _ => Bool.and_not_self (x.meural_id == id))]
  exact List.filter_false l

/-- Helper: purging rows keyed `id` does not change lookups of a
different key. -/
theorem find_other_key (l : List PhotoRow) (id otherId : ℤ) (hne : otherId ≠ id) :
    (l.filter (fun r => !(r.meural_id == id))).find? (fun r => r.meural_id == otherId)
      = l.find? (fun r => r.meural_id == otherId) := by
  induction l with
  | nil => rfl
  | cons a t ih =>
    by_cases ha : a.meural_id = id
    · rw [List.filter_cons_of_neg (by simp [ha])]
      rw [List.find?_cons_of_neg t (by simp [ha, Ne.symm hne])]
      exact ih
    · rw [List.filter_cons_of_pos (by simp [ha])]
      cases hmatch : (a.meural_id == otherId) with
      | true =>
        rw [List.find?_cons_of_pos _ (by simp [hmatch]),
          List.find?_cons_of_pos _ (by simp [hmatch])]
      | false =>
        rw [List.find?_cons_of_neg _ (by simp [hmatch]),
          List.find?_cons_of_neg _ (by simp [hmatch])]
        exact ih

/-- C10: writing a record for a remote id fully replaces any prior row —
after the write, the lookup for that id returns exactly the freshly
built row (no field carried over from the old row), the table holds
exactly one row for that id, lookups of other ids are untouched, and
the at-most-one-row-per-id invariant is preserved for every key. -/
theorem savePhotoExif_replaces_wholesale (db : List PhotoRow) (meuralId : ℤ)
    (filename : String) (exifData : PhotoExif) :
    getByMeuralId (savePhotoExif db meuralId filename exifData) meuralId
      = some (mkPhotoRow meuralId filename exifData) ∧
    (savePhotoExif db meuralId filename exifData).filter
      (fun r => r.meural_id == meuralId) = [mkPhotoRow meuralId filename exifData] ∧
    (∀ otherId : ℤ, otherId ≠ meuralId →
      getByMeuralId (savePhotoExif db meuralId filename exifData) otherId
        = getByMeuralId db otherId) ∧
    (∀ j : ℤ, (db.filter (fun r => r.meural_id == j)).length ≤ 1 →
      ((savePhotoExif db meuralId filename exifData).filter
        (fun r => r.meural_id == j)).length ≤ 1) := by
  have hfilterSingle : (List.filter (fun r => r.meural_id == meuralId)
      [mkPhotoRow meuralId filename exifData]) = [mkPhotoRow meuralId filename exifData] := by
    rw [List.filter_cons_of_pos (by simp [mkPhotoRow]), List.filter_nil]
  refine ⟨?_, ?_, ?_, ?_⟩
  · unfold getByMeuralId savePhotoExif
    rw [List.find?_append, find_none_in_purged db meuralId, Option.none_or]
    rw [List.find?_cons_of_pos _ (by simp [mkPhotoRow])]
  · unfold savePhotoExif
    rw [List.filter_append, filter_purged_nil, List.nil_append, hfilterSingle]
  · intro otherId hne
    unfold getByMeuralId savePhotoExif
    rw [List.find?_append]
    rw [List.find?_cons_of_neg _ (by simp [mkPhotoRow, Ne.symm hne]), List.find?_nil]
    rw [Option.or_none]
    exact find_other_key db meuralId otherId hne
  · intro j hj
    by_cases hji : j = meuralId
    · subst hji
      unfold savePhotoExif
      rw [List.filter_append, filter_purged_nil, List.nil_append, hfilterSingle]
      exact le_refl 1
    · unfold savePhotoExif
      rw [List.filter_append]
      rw [List.filter_cons_of_neg (by simp [mkPhotoRow]; exact fun h => hji h.symm),
        List.filter_nil, List.append_nil]
      calc ((db.filter (fun r => !(r.meural_id == meuralId))).filter
              (fun r => r.meural_id == j)).length
          ≤ (db.filter (fun r => r.meural_id == j)).length :=
            List.Sublist.length_le (List.Sublist.filter _ (List.filter_sublist _))
        _ ≤ 1 := hj

/-- Witness for `savePhotoExif_replaces_wholesale`. -/
theorem savePhotoExif_replaces_wholesale_witness :
    getByMeuralId (savePhotoExif [] 7 "a.jpg" { }) 7 = some (mkPhotoRow 7 "a.jpg" { }) ∧
    getByMeuralId (savePhotoExif [] 7 "a.jpg" { }) 3 = getByMeuralId [] 3 :=
  ⟨(savePhotoExif_replaces_wholesale [] 7 "a.jpg" { }).1,
   (savePhotoExif_replaces_wholesale [] 7 "a.jpg" { }).2.2.1 3 (by decide)⟩

/-! ## Claims about the Upload Orchestrator (C1, C5, C6) -/

/-- Helper: when the success-path `fs.unlinkSync` does not throw, every
file contributes exactly one entry, carrying its own filename. -/
theorem processFile_single_entry (env : FileEnv) (h : env.unlink = Except.ok ()) :
    (processFile env).map ResultEntry.filename = [env.filename] := by
  unfold processFile
  cases hr : env.read with
  | error msg => simp [catchEntry]
  | ok buf =>
    cases hu : env.uploadFetch with
    | error msg => simp [catchEntry]
    | ok okBody =>
      by_cases he : (okBody.1 && idTruthy (bodyId okBody.2)) = true
      · cases hs : env.save with
        | error msg => simp [he, hs, h, catchEntry]
        | ok u => simp [he, hs, h, catchEntry]
      · simp [he, h, catchEntry]

/-- C1: whenever the success-path unlink does not throw, the batch
result has exactly one entry per input file, in input order, and one
file's outcome never affects its siblings (the loop is a concatenation
of independent per-file runs).  However, the claim's "exactly one entry
per input file" is violated by the code when `fs.unlinkSync` throws on
the success path: the entry has already been pushed, the throw reaches
the per-file `catch`, and a second (failure) entry is pushed for the
same file — exhibited on a one-file batch producing two entries. -/
theorem upload_batch_entry_accounting :
    (∀ files : List FileEnv, (∀ env ∈ files, env.unlink = Except.ok ()) →
      (uploadBatch files).map ResultEntry.filename = files.map FileEnv.filename) ∧
    (∀ (env : FileEnv) (rest : List FileEnv),
      uploadBatch (env :: rest) = processFile env ++ uploadBatch rest) ∧
    (uploadBatch [unlinkFailEnv]).length = 2 ∧
    (uploadBatch [unlinkFailEnv]).map (fun e => (e.filename, e.success))
      = [("a.jpg", true), ("a.jpg", false)] := by
  refine ⟨?_, fun env rest => rfl, by decide, by decide⟩
  intro files
  induction files with
  | nil => intro _; rfl
  | cons f fs ih =>
    intro hall
    rw [show uploadBatch (f :: fs) = processFile f ++ uploadBatch fs from rfl,
      List.map_append, processFile_single_entry f (hall f (List.mem_cons_self f fs)),
      ih (fun env hm => hall env (List.mem_cons_of_mem f hm))]
    rfl

/-- Witness for `upload_batch_entry_accounting`. -/
theorem upload_batch_entry_accounting_witness :
    (uploadBatch [unlinkOkEnv]).map ResultEntry.filename
      = [unlinkOkEnv].map FileEnv.filename :=
  upload_batch_entry_accounting.1 [unlinkOkEnv]
    (fun env hm => by
      have he := List.mem_singleton.mp hm
      subst he
      rfl)

/-- C5: when EXIF parsing throws, `extractExif` returns (never throws) a
degraded record whose catch-all blob and every typed field are null,
and the extraction failure does not abort the per-file pipeline: with a
successful upload the file's entry still reports success (with a fully
nulled exif summary), and with a failed upload the entry still exists
and reports the failure. -/
theorem extract_failure_degrades_not_aborts :
    (∀ msg : String,
      (extractExif (Except.error msg)).date_taken = none ∧
      (extractExif (Except.error msg)).camera_make = none ∧
      (extractExif (Except.error msg)).camera_model = none ∧
      (extractExif (Except.error msg)).lens_model = none ∧
      (extractExif (Except.error msg)).focal_length = none ∧
      (extractExif (Except.error msg)).focal_length_35mm = none ∧
      (extractExif (Except.error msg)).aperture = none ∧
      (extractExif (Except.error msg)).shutter_speed = none ∧
      (extractExif (Except.error msg)).iso = none ∧
      (extractExif (Except.error msg)).exposure_compensation = none ∧
      (extractExif (Except.error msg)).gps_latitude = none ∧
      (extractExif (Except.error msg)).gps_longitude = none ∧
      (extractExif (Except.error msg)).gps_altitude = none ∧
      (extractExif (Except.error msg)).location_name = none ∧
      (extractExif (Except.error msg)).width = none ∧
      (extractExif (Except.error msg)).height = none ∧
      (extractExif (Except.error msg)).orientation = none ∧
      (extractExif (Except.error msg)).color_space = none ∧
      (extractExif (Except.error msg)).white_balance = none ∧
      (extractExif (Except.error msg)).exif_json = none) ∧
    (∀ (env : FileEnv) (pmsg : String) (buf : List Nat) (body : ResponseBody),
      env.parse = .error pmsg → env.read = .ok buf →
      env.uploadFetch = .ok (true, body) → idTruthy (bodyId body) = true →
      env.save = .ok () → env.unlink = .ok () →
      (processFile env).map (fun e => (e.filename, e.success, e.exif))
        = [(env.filename, true, some nullExifSummary)]) ∧
    (∀ (env : FileEnv) (pmsg umsg : String) (buf : List Nat),
      env.parse = .error pmsg → env.read = .ok buf → env.uploadFetch = .error umsg →
      processFile env = [catchEntry env.filename umsg]) := by
  refine ⟨fun msg => by simp [extractExif], ?_, ?_⟩
  · intro env pmsg buf body hp hr hu hid hs hun
    simp [processFile, hp, hr, hu, hid, hs, hun, extractExif, numTruthy,
      jsOr, getSeason, nullExifSummary]
  · intro env pmsg umsg buf hp hr hu
    simp [processFile, hp, hr, hu]

/-- Witness for `extract_failure_degrades_not_aborts`. -/
theorem extract_failure_degrades_not_aborts_witness :
    (processFile parseFailEnv).map (fun e => (e.filename, e.success, e.exif))
      = [(parseFailEnv.filename, true, some nullExifSummary)] :=
  extract_failure_degrades_not_aborts.2.1 parseFailEnv "bad exif" [] _
    rfl rfl rfl rfl rfl rfl

/-- C6: the Geocoder returns null (never throws into its caller) when
the reverse lookup throws — a network error or a malformed body making
`response.json()` throw both land there; the Caption Generator returns
null when no backend is configured or when the backend call throws; and
with both enrichments failing, a file whose upload succeeded still
reports success with null caption and null location. -/
theorem enrichment_failure_is_silent :
    (∀ msg : String, reverseGeocode (.error msg) = none) ∧
    (∀ resp : Except String (List (Option String)),
      analyzeImageWithVision false resp = none) ∧
    (∀ msg : String, analyzeImageWithVision true (.error msg) = none) ∧
    (∀ (env : FileEnv) (tags : ExifTags) (gmsg vmsg : String) (buf : List Nat)
        (body : ResponseBody),
      env.read = .ok buf → env.parse = .ok tags → env.geo = .error gmsg →
      env.visionConfigured = true → env.vision = .error vmsg →
      env.uploadFetch = .ok (true, body) → idTruthy (bodyId body) = true →
      env.save = .ok () → env.unlink = .ok () →
      (processFile env).map (fun e => (e.success, e.vision_caption,
          e.exif.map ExifSummary.location)) = [(true, none, some none)]) := by
  refine ⟨fun msg => rfl, fun resp => rfl, fun msg => rfl, ?_⟩
  intro env tags gmsg vmsg buf body hr hp hg hvc hv hu hid hs hun
  simp [processFile, hr, hp, hg, hvc, hv, hu, hid, hs, hun,
    analyzeImageWithVision, reverseGeocode, jsOr]

/-- Witness for `enrichment_failure_is_silent`. -/
theorem enrichment_failure_is_silent_witness :
    (processFile enrichFailEnv).map (fun e => (e.success, e.vision_caption,
        e.exif.map ExifSummary.location)) = [(true, none, some none)] :=
  enrichment_failure_is_silent.2.2.2 enrichFailEnv tagsBothPresent
    "network down" "api down" [] _ rfl rfl rfl rfl rfl rfl rfl rfl rfl
